import Mathlib

/-!
Verification of the SDDC FX3 firmware control plane (ExtIO_sddc repository).

Shallow embedding of the EP0 vendor-request dispatcher
(`src/SDDC_FX3/USBHandler.c`, `CyFxSlFifoApplnUSBSetupCB`), the Si5351
clock driver (`src/SDDC_FX3/driver/Si5351.c`), the PIB error callback and
preflight check (`src/SDDC_FX3/StartStopApplication.c`), and the GPIF
watchdog poll (`src/SDDC_FX3/RunApplication.c`, `ApplicationThread`).

Machine integers are modelled as `Nat` with explicit `% 2^w` where the C
code can wrap.  Fallible platform calls (USB data phase, I2C transfers,
DMA/GPIF setup) are resolved by an environment record supplying each call
site's outcome; hardware side effects are recorded as an `Action` trace.
Debug prints (`DebugPrint`, `CheckStatus`) are pure diagnostics and are
not modelled.
-/

namespace SDDC

/-! ## Protocol constants

From `src/SDDC_FX3/protocol.h` and `src/tests/fx3_cmd.c` (GETSTATS and
WDG_MAX_RECOV are defined in the firmware's `Application.h`, not present
here; `src/tests/fx3_cmd.c` lines 48 and 61 pin them to 0xB3 and 14). -/

def STARTFX3 : Nat := 0xAA
def STOPFX3 : Nat := 0xAB
def TESTFX3 : Nat := 0xAC
def GPIOFX3 : Nat := 0xAD
def I2CWFX3 : Nat := 0xAE
def I2CRFX3 : Nat := 0xAF
def RESETFX3 : Nat := 0xB1
def STARTADC : Nat := 0xB2
def GETSTATS : Nat := 0xB3
def SETARGFX3 : Nat := 0xB6
def READINFODEBUG : Nat := 0xBA

def DAT31_ATT : Nat := 10
def AD8370_VGA : Nat := 11
def WDG_MAX_RECOV : Nat := 14

/-- Cypress SDK constants (`cyu3usb.h`): request types and targets. -/
def CY_U3P_USB_STANDARD_RQT : Nat := 0x00
def CY_U3P_USB_VENDOR_RQT : Nat := 0x40
def CY_U3P_USB_TARGET_INTF : Nat := 0x01
def CY_U3P_USB_TARGET_ENDPT : Nat := 0x02
def CY_U3P_USB_SC_CLEAR_FEATURE : Nat := 0x01
def CY_U3P_USB_SC_SET_FEATURE : Nat := 0x03
def CY_U3P_USBX_FS_EP_HALT : Nat := 0x00

/-- Constant `CYFX_SDRAPP_MAX_EP0LEN` in USBHandler.c. -/
def CYFX_SDRAPP_MAX_EP0LEN : Nat := 64

/-- Si5351 register addresses (`src/SDDC_FX3/driver/Si5351.c`). -/
def SI5351_ADDR : Nat := 0xC0
def SI_CLK0_CONTROL : Nat := 16
def SI_SYNTH_PLL_A : Nat := 26
def SI_SYNTH_MS_0 : Nat := 42
def SI_PLL_RESET : Nat := 177
def SI5351_FREQ : Nat := 27000000

/-- Event-queue kind tags.  PIB error events carry tag 2
(`StartStopApplication.c` line 46); `USER_COMMAND_AVAILABLE` is defined in
the firmware's `Application.h` (not in src); the spec's event table (§4.4)
gives it kind 0x03. -/
def PIB_ERROR_TAG : Nat := 2
def USER_COMMAND_AVAILABLE : Nat := 3

/-- Constant `CYU3P_PIB_INTR_ERROR` is an SDK interrupt-type enumerator; only its
identity matters (the callback compares `cbType` against it). -/
def CYU3P_PIB_INTR_ERROR : Nat := 1

/-! ## Hardware action trace

One constructor per observable platform call made by the embedded code.
`i2c reg addr data isRead` covers `I2cTransfer` / `I2cTransferW1`
(for reads `data` is empty — the reply is supplied by the environment). -/

inductive Action where
  | lpmDisable
  | lpmEnable
  | getEP0Data (wLength : Nat)
  | stall (ep : Nat) (set : Bool) (toggle : Bool)
  | ackSetup
  | gpifGetSM
  | gpifDisable (force : Bool)
  | gpifSWInput (enable : Bool)
  | dmaReset
  | flushEp
  | dmaSetXfer
  | gpifLoad
  | gpifSMStart
  | sendEP0 (bytes : List Nat)
  | i2c (reg : Nat) (addr : Nat) (data : List Nat) (isRead : Bool)
  | gpioSet (word : Nat)
  | setAttenuator (v : Nat)
  | setGain (v : Nat)
  | consoleChar (c : Nat)
  | sleep (ms : Nat)
  | deviceReset
  deriving DecidableEq, Repr

/-! ## Firmware global state

The module-level globals of USBHandler.c / StartStopApplication.c /
RunApplication.c that the embedded operations read or write.
`glDebTxt` models `glBufDebug[0 .. glDebTxtLen)`; `glEventQueue` models
the 16-slot `glEventAvailable` queue of 32-bit words. -/

structure FwState where
  glIsApplnActive : Bool
  glAdcClockEnabled : Bool
  glVendorRqtCnt : Nat
  glWdgMaxRecovery : Nat
  glWdgRecoveryCount : Nat
  glDMACount : Nat
  glCounter0 : Nat
  glCounter1 : Nat
  glCounter2 : Nat
  glLastPibArg : Nat
  glHWconfig : Nat
  glFWconfig : Nat
  glFlagDebug : Bool
  glDebTxt : List Nat
  glEventQueue : List Nat
  deriving DecidableEq, Repr

/-- Behavior of `CyU3PQueueSend(..., CYU3P_NO_WAIT)` on the 16-word queue: append if
there is room, otherwise the send fails and the word is dropped. -/
def queueSend (q : List Nat) (evt : Nat) : List Nat :=
  if q.length < 16 then q ++ [evt] else q

/-! ## Byte-level helpers (little-endian memcpy of uint32/uint16) -/

def le32 (n : Nat) : List Nat :=
  [n % 256, n / 256 % 256, n / 65536 % 256, n / 16777216 % 256]

def le16 (n : Nat) : List Nat :=
  [n % 256, n / 256 % 256]

/-- Decode 4 bytes little-endian starting at `off` (0 when absent). -/
def decode32 (l : List Nat) (off : Nat) : Nat :=
  l.getD off 0 + 256 * l.getD (off + 1) 0 + 65536 * l.getD (off + 2) 0 +
    16777216 * l.getD (off + 3) 0

def decode16 (l : List Nat) (off : Nat) : Nat :=
  l.getD off 0 + 256 * l.getD (off + 1) 0

/-- Value of the first four EP0 data bytes, as the C `memcpy(&val, buf, 4)`
on the little-endian ARM core. -/
def le32of (l : List Nat) : Nat :=
  l.getD 0 0 % 256 + 256 * (l.getD 1 0 % 256) + 65536 * (l.getD 2 0 % 256) +
    16777216 * (l.getD 3 0 % 256)

/-! ## Si5351 clock driver (`src/SDDC_FX3/driver/Si5351.c`)

The arithmetic of `si5351aSetFrequencyA` (lines 177-252), split into the
same intermediate quantities the C code computes.  All C locals are
`UINT32` except `mult` (`UINT8`) and the 64-bit intermediate in `num`;
none of the operations below can exceed their C type's range except the
`P1` subtraction in `SetupPLL`, which is modelled with an explicit
wrap-around mod 2^32. -/

/-- Loop on lines 200-204: double `frequency` (accumulating `SI_R_DIV_2 =
0x10` into `rdiv`) until it reaches 1 MHz.  The C loop is unbounded; fuel
20 is exact on the loop's reachable inputs, because the function is only
entered with `freq > 0` and `2^20 > 1000000`, so at most 20 doublings
occur. -/
def adcDoubleFuel : Nat → Nat → Nat → Nat × Nat
  | 0, f, r => (f, r)
  | fuel + 1, f, r =>
      if f < 1000000 then adcDoubleFuel fuel (2 * f) (r + 0x10) else (f, r)

/-- Value of the local `frequency` after the doubling loop (initial
`rdiv = SI_R_DIV_1 = 0`). -/
def adcFrequency (freq : Nat) : Nat := (adcDoubleFuel 20 freq 0).1

/-- Value of the local `rdiv` after the doubling loop. -/
def adcRdiv (freq : Nat) : Nat := (adcDoubleFuel 20 freq 0).2

/-- Lines 208-210: `divider = 900000000 / frequency`, decremented to even. -/
def adcDivider (freq : Nat) : Nat :=
  let d := 900000000 / adcFrequency freq
  if d % 2 = 1 then d - 1 else d

/-- Line 212: `pllFreq = divider * frequency` (never exceeds 900 MHz,
since `divider ≤ 900000000 / frequency`). -/
def adcPllFreq (freq : Nat) : Nat := adcDivider freq * adcFrequency freq

/-- Line 216: `mult = pllFreq / xtalFreq`. -/
def pllMult (freq : Nat) : Nat := adcPllFreq freq / SI5351_FREQ

/-- Lines 217-219: `num = (uint64_t)(pllFreq % xtalFreq) * 1048575 / xtalFreq`. -/
def pllNum (freq : Nat) : Nat :=
  adcPllFreq freq % SI5351_FREQ * 1048575 / SI5351_FREQ

/-- Line 220: `denom = 1048575`. -/
def pllDenom : Nat := 1048575

/-- SetupPLL line 95: `P1 = 128 * mult + (128 * num) / denom - 512` in
UINT32 arithmetic (wraps below 512). -/
def pllP1 (mult num denom : Nat) : Nat :=
  (128 * mult + 128 * num / denom + (2 ^ 32 - 512)) % 2 ^ 32

/-- SetupPLL line 96: `P2 = 128 * num - denom * ((128 * num) / denom)`
(never negative: it is the remainder of `128 * num` by `denom`). -/
def pllP2 (num denom : Nat) : Nat :=
  128 * num - denom * (128 * num / denom)

/-- SetupPLL line 97: `P3 = denom`. -/
def pllP3 (denom : Nat) : Nat := denom

/-- SetupPLL lines 99-106: the 8 register bytes written to the PLL, built
from P1/P2/P3 by mask-and-shift. -/
def SetupPLLData (mult num denom : Nat) : List Nat :=
  let P1 := pllP1 mult num denom
  let P2 := pllP2 num denom
  let P3 := pllP3 denom
  [P3 / 256 % 256, P3 % 256, P1 / 65536 % 4, P1 / 256 % 256, P1 % 256,
   P3 / 65536 % 16 * 16 + P2 / 65536 % 16, P2 / 256 % 256, P2 % 256]

/-- SetupMultisynth lines 123-134: integer divider, `P2 = 0`, `P3 = 1`;
`rDiv` is OR-ed into byte 2 (a UINT8, hence the mod 256). -/
def SetupMultisynthData (divider rdiv : Nat) : List Nat :=
  let P1 := (128 * divider + (2 ^ 32 - 512)) % 2 ^ 32
  [0, 1, (P1 / 65536 % 4 ||| rdiv) % 256, P1 / 256 % 256, P1 % 256, 0, 0, 0]

/-- Outcomes of the five I2C write call sites inside
`si5351aSetFrequencyA` (one field per call site). -/
structure SiEnv where
  clkOffOk : Bool
  pllWriteOk : Bool
  msWriteOk : Bool
  pllResetOk : Bool
  clkCtrlOk : Bool
  deriving DecidableEq, Repr

/-- Result of `si5351aSetFrequencyA`: the returned status, the value of
the module global `glAdcClockEnabled` after the call, and the I2C traffic
issued. -/
structure SiResult where
  ok : Bool
  flag : Bool
  actions : List Action
  deriving DecidableEq, Repr

/-- Embedding of `si5351aSetFrequencyA` (Si5351.c lines 177-252).
`flag` is the value of `glAdcClockEnabled` on entry.  With `freq = 0` the
flag is cleared before the CLK0-off write is issued (lines 190-194); with
`freq > 0` each register write is checked and a failure returns early
with the flag untouched; the flag is set only after the final
CLK0-control write succeeds (lines 244-251). -/
def si5351aSetFrequencyA (env : SiEnv) (flag : Bool) (freq : Nat) : SiResult :=
  if freq = 0 then
    { ok := env.clkOffOk, flag := false,
      actions := [.i2c SI_CLK0_CONTROL SI5351_ADDR [0x80] false] }
  else
    let pllA := Action.i2c SI_SYNTH_PLL_A SI5351_ADDR
      (SetupPLLData (pllMult freq) (pllNum freq) pllDenom) false
    let ms0 := Action.i2c SI_SYNTH_MS_0 SI5351_ADDR
      (SetupMultisynthData (adcDivider freq) (adcRdiv freq)) false
    let rst := Action.i2c SI_PLL_RESET SI5351_ADDR [0x20] false
    let clk := Action.i2c SI_CLK0_CONTROL SI5351_ADDR [0x4F] false
    if ¬ env.pllWriteOk then { ok := false, flag := flag, actions := [pllA] }
    else if ¬ env.msWriteOk then
      { ok := false, flag := flag, actions := [pllA, ms0] }
    else if ¬ env.pllResetOk then
      { ok := false, flag := flag, actions := [pllA, ms0, rst] }
    else if env.clkCtrlOk then
      { ok := true, flag := true, actions := [pllA, ms0, rst, clk] }
    else { ok := false, flag := flag, actions := [pllA, ms0, rst, clk] }

/-! ## EP0 setup callback (`src/SDDC_FX3/USBHandler.c`,
`CyFxSlFifoApplnUSBSetupCB`, lines 106-461) -/

/-- Decoded SETUP fields (lines 124-130). -/
structure SetupPkt where
  bType : Nat
  bTarget : Nat
  bRequest : Nat
  wValue : Nat
  wIndex : Nat
  wLength : Nat
  deriving DecidableEq, Repr

/-- Outcomes of the fallible platform calls the dispatcher makes, one
field per call site.  `pllStatusOk` / `pllStatus` resolve the I2C status
read inside `si5351_pll_locked`; `pllPollLocked i` resolves its i-th call
in the STARTADC lock-poll loop; `siStatusByte` is what the GETSTATS
status read leaves in the buffer (the code ignores that read's status and
pre-zeroes the byte, so a failed read reports 0). -/
structure UsbEnv where
  getEP0Ok : Bool
  ep0Data : List Nat
  smState : Nat
  pllStatusOk : Bool
  pllStatus : Nat
  pllPollLocked : Nat → Bool
  siStatusByte : Nat
  i2cOk : Bool
  i2cData : List Nat
  setXferOk : Bool
  smStartOk : Bool
  si : SiEnv

/-- Embedding of `si5351_pll_locked` (Si5351.c lines 152-163): true iff
the status-register read succeeds and bit 5 (LOL_A) is clear. -/
def si5351_pll_locked (statusOk : Bool) (status : Nat) : Bool :=
  statusOk && (status &&& 0x20 == 0)

/-- Embedding of `GpifPreflightCheck` (StartStopApplication.c lines
89-100): the cached CLK0-enable flag, then PLL lock. -/
def GpifPreflightCheck (env : UsbEnv) (s : FwState) : Bool :=
  s.glAdcClockEnabled && si5351_pll_locked env.pllStatusOk env.pllStatus

/-- I2C traffic of `GpifPreflightCheck`: the status read happens only if
the first (flag) check passes. -/
def preflightActs (s : FwState) : List Action :=
  if s.glAdcClockEnabled then [.i2c 0 SI5351_ADDR [] true] else []

/-- The STARTADC PLL-lock poll (USBHandler.c lines 229-235): up to 100
iterations of sleep(1) followed by a lock check, stopping early once
locked. -/
def pllPollLoop : Nat → (Nat → Bool) → Nat → List Action
  | 0, _, _ => []
  | fuel + 1, locked, i =>
      .sleep 1 :: .i2c 0 SI5351_ADDR [] true ::
        (if locked i then [] else pllPollLoop fuel locked (i + 1))

/-- The 20 bytes assembled by the GETSTATS branch (USBHandler.c lines
244-264): DMA count, GPIF SM state, PIB error count, last PIB argument,
I2C failure count, streaming-fault count, Si5351 status byte. -/
def statsBytes (env : UsbEnv) (s : FwState) : List Nat :=
  le32 s.glDMACount ++ [env.smState % 256] ++ le32 s.glCounter0 ++
    le16 s.glLastPibArg ++ le32 s.glCounter1 ++ le32 s.glCounter2 ++
    [env.siStatusByte % 256]

/-- Result of the setup callback: the returned `isHandled`, the global
state after the call, and the platform calls issued. -/
structure CbResult where
  isHandled : Bool
  state : FwState
  actions : List Action
  deriving Repr

/-- The vendor-request switch (USBHandler.c lines 184-457), entered only
after the oversize-wLength guard.  `TraceSerial` is debug-only output and
is not modelled. -/
def vendorDispatch (env : UsbEnv) (s : FwState) (p : SetupPkt) : CbResult :=
  if p.bRequest = GPIOFX3 then
    if env.getEP0Ok then
      { isHandled := true, state := s,
        actions := [.getEP0Data p.wLength, .gpioSet (le32of env.ep0Data)] }
    else { isHandled := false, state := s, actions := [.getEP0Data p.wLength] }
  else if p.bRequest = STARTADC then
    if env.getEP0Ok then
      let freq := le32of env.ep0Data
      let stopActs : List Action :=
        if env.smState ≠ 0 ∧ env.smState ≠ 0xFF then
          [.gpifSWInput false, .gpifDisable true, .dmaReset, .flushEp]
        else []
      let r := si5351aSetFrequencyA env.si s.glAdcClockEnabled freq
      let s' := { s with glAdcClockEnabled := r.flag }
      if r.ok then
        { isHandled := true, state := s',
          actions := .getEP0Data p.wLength :: .gpifGetSM :: stopActs ++
            r.actions ++ pllPollLoop 100 env.pllPollLocked 0 }
      else
        { isHandled := false, state := s',
          actions := .getEP0Data p.wLength :: .gpifGetSM :: stopActs ++
            r.actions }
    else { isHandled := false, state := s, actions := [.getEP0Data p.wLength] }
  else if p.bRequest = GETSTATS then
    { isHandled := true, state := s,
      actions := [.gpifGetSM, .i2c 0 SI5351_ADDR [] true,
        .sendEP0 (statsBytes env s)] }
  else if p.bRequest = I2CWFX3 then
    if env.getEP0Ok then
      if env.i2cOk then
        { isHandled := true, state := s,
          actions := [.getEP0Data p.wLength,
            .i2c p.wIndex p.wValue (env.ep0Data.take p.wLength) false] }
      else
        { isHandled := false, state := s,
          actions := [.getEP0Data p.wLength,
            .i2c p.wIndex p.wValue (env.ep0Data.take p.wLength) false] }
    else { isHandled := false, state := s, actions := [.getEP0Data p.wLength] }
  else if p.bRequest = I2CRFX3 then
    if env.i2cOk then
      { isHandled := true, state := s,
        actions := [.i2c p.wIndex p.wValue [] true,
          .sendEP0 ((env.i2cData.take p.wLength) ++
            List.replicate (p.wLength - env.i2cData.length) 0)] }
    else
      { isHandled := false, state := s,
        actions := [.i2c p.wIndex p.wValue [] true] }
  else if p.bRequest = SETARGFX3 then
    if p.wIndex = DAT31_ATT then
      { isHandled := true,
        state := { s with glVendorRqtCnt := (s.glVendorRqtCnt + 1) % 256 },
        actions := [.getEP0Data p.wLength, .setAttenuator (p.wValue % 256)] }
    else if p.wIndex = AD8370_VGA then
      { isHandled := true,
        state := { s with glVendorRqtCnt := (s.glVendorRqtCnt + 1) % 256 },
        actions := [.getEP0Data p.wLength, .setGain (p.wValue % 256)] }
    else if p.wIndex = WDG_MAX_RECOV then
      { isHandled := true,
        state :=
          { s with
            glWdgMaxRecovery := p.wValue % 256,
            glVendorRqtCnt := (s.glVendorRqtCnt + 1) % 256 },
        actions := [.getEP0Data p.wLength] }
    else
      { isHandled := true, state := s,
        actions := [.getEP0Data p.wLength, .stall 0 true false] }
  else if p.bRequest = STARTFX3 then
    if GpifPreflightCheck env s then
      let s' := { s with glDMACount := 0, glWdgRecoveryCount := 0 }
      let pre := Action.lpmDisable :: .getEP0Data p.wLength :: preflightActs s
      let teardown : List Action := [.gpifDisable true, .dmaReset, .flushEp]
      if env.setXferOk then
        if env.smStartOk then
          { isHandled := true, state := s',
            actions := pre ++ teardown ++
              [.dmaSetXfer, .gpifLoad, .gpifSMStart, .gpifSWInput true,
               .gpifGetSM] }
        else
          { isHandled := true, state := s',
            actions := pre ++ teardown ++
              [.dmaSetXfer, .gpifLoad, .gpifSMStart, .stall 0 true false,
               .gpifGetSM] }
      else
        { isHandled := true, state := s',
          actions := pre ++ teardown ++
            [.dmaSetXfer, .stall 0 true false, .gpifGetSM] }
    else
      { isHandled := true, state := s,
        actions := Action.lpmDisable :: .getEP0Data p.wLength ::
          preflightActs s ++ [.stall 0 true false] }
  else if p.bRequest = STOPFX3 then
    { isHandled := true,
      state := { s with glDMACount := 0, glWdgRecoveryCount := 0 },
      actions := [.lpmEnable, .getEP0Data p.wLength, .gpifSWInput false,
        .gpifDisable true, .dmaReset, .sleep 1, .flushEp, .gpifGetSM] }
  else if p.bRequest = RESETFX3 then
    { isHandled := false, state := s,
      actions := [.getEP0Data p.wLength, .sleep 100, .deviceReset] }
  else if p.bRequest = TESTFX3 then
    { isHandled := true,
      state :=
        { s with
          glFlagDebug := p.wValue == 1,
          glVendorRqtCnt := (s.glVendorRqtCnt + 1) % 256 },
      actions := [.sendEP0 [s.glHWconfig % 256, s.glFWconfig / 256 % 256,
        s.glFWconfig % 256, s.glVendorRqtCnt % 256]] }
  else if p.bRequest = READINFODEBUG then
    let inActs : List Action :=
      if 0 < p.wValue ∧ p.wValue % 256 ≠ 0x0D then [.consoleChar (p.wValue % 256)]
      else []
    let q' :=
      if 0 < p.wValue ∧ p.wValue % 256 = 0x0D then
        queueSend s.glEventQueue (USER_COMMAND_AVAILABLE * 2 ^ 24)
      else s.glEventQueue
    if s.glDebTxt ≠ [] then
      let len := min s.glDebTxt.length 63
      { isHandled := true,
        state :=
          { s with
            glEventQueue := q',
            glDebTxt := s.glDebTxt.drop len,
            glVendorRqtCnt := (s.glVendorRqtCnt + 1) % 256 },
        actions := inActs ++ [.sendEP0 (s.glDebTxt.take len ++ [0])] }
    else
      { isHandled := true, state := { s with glEventQueue := q' },
        actions := inActs ++ [.stall 0 true false] }
  else
    { isHandled := false, state := s, actions := [.stall 0 true false] }

/-- The standard-request branch (USBHandler.c lines 132-173): the
FUNCTION_SUSPEND feature requests, then CLEAR_FEATURE(ENDPOINT_HALT).
The two guards are mutually exclusive (interface vs endpoint target) but
are modelled sequentially as in the source. -/
def standardDispatch (s : FwState) (p : SetupPkt) : CbResult :=
  let fs :=
    p.bTarget = CY_U3P_USB_TARGET_INTF ∧
      (p.bRequest = CY_U3P_USB_SC_SET_FEATURE ∨
        p.bRequest = CY_U3P_USB_SC_CLEAR_FEATURE) ∧ p.wValue = 0
  let h1 : Bool := decide fs
  let a1 : List Action :=
    if fs then
      if s.glIsApplnActive then [.ackSetup] else [.stall 0 true false]
    else []
  if p.bTarget = CY_U3P_USB_TARGET_ENDPT ∧
      p.bRequest = CY_U3P_USB_SC_CLEAR_FEATURE ∧
      p.wValue = CY_U3P_USBX_FS_EP_HALT then
    if s.glIsApplnActive then
      { isHandled := true, state := s,
        actions := a1 ++ [.stall p.wIndex false true] }
    else { isHandled := h1, state := s, actions := a1 }
  else { isHandled := h1, state := s, actions := a1 }

/-- Embedding of the full setup callback `CyFxSlFifoApplnUSBSetupCB`:
standard branch, or vendor branch guarded by the 64-byte EP0 limit
(lines 178-182), otherwise unhandled. -/
def CyFxSlFifoApplnUSBSetupCB (env : UsbEnv) (s : FwState) (p : SetupPkt) :
    CbResult :=
  if p.bType = CY_U3P_USB_STANDARD_RQT then standardDispatch s p
  else if p.bType = CY_U3P_USB_VENDOR_RQT then
    if CYFX_SDRAPP_MAX_EP0LEN < p.wLength then
      { isHandled := true, state := s, actions := [.stall 0 true false] }
    else vendorDispatch env s p
  else { isHandled := false, state := s, actions := [] }

/-! ## PIB error callback (`src/SDDC_FX3/StartStopApplication.c`,
`PibErrorCallback`, lines 41-49) -/

/-- Embedding of `PibErrorCallback`.  On every error interrupt it
increments `glCounter[0]` (a UINT32), stores the 16-bit argument, and
does a non-blocking send of the tagged event word `(2 << 24) | cbArg` to
the 16-slot event queue. -/
def PibErrorCallback (cbType : Nat) (cbArg : Nat) (s : FwState) : FwState :=
  if cbType = CYU3P_PIB_INTR_ERROR then
    { s with
      glCounter0 := (s.glCounter0 + 1) % 2 ^ 32,
      glLastPibArg := cbArg % 2 ^ 16,
      glEventQueue :=
        queueSend s.glEventQueue (PIB_ERROR_TAG * 2 ^ 24 ||| cbArg % 2 ^ 16) }
  else s

/-! ## GPIF watchdog poll (`src/SDDC_FX3/RunApplication.c`,
`ApplicationThread`, lines 214-293)

One 100 ms iteration of the watchdog block.  The function-local statics
`prevDMACount` and `stallCount` are threaded through `WdgState`. -/

/-- The static locals of the watchdog block. -/
structure WdgState where
  prevDMACount : Nat
  stallCount : Nat
  deriving DecidableEq, Repr

/-- Outcomes of the platform reads the watchdog iteration makes. -/
structure WdgEnv where
  smState : Nat
  pllStatusOk : Bool
  pllStatus : Nat
  deriving DecidableEq, Repr

/-- Result of one watchdog iteration. -/
structure WdgResult where
  state : FwState
  wdg : WdgState
  actions : List Action
  deriving Repr

/-- Embedding of one watchdog iteration (RunApplication.c lines 218-293).
If the DMA count is unchanged and positive and the GPIF SM sits in the
BUSY/WAIT set {5, 7, 8, 9}, the stall counter advances; at 3 the recovery
tear-down runs (trigger off, GPIF disable, DMA reset, EP flush), the
restart happens only if the PLL is still locked, and `glCounter[2]` is
incremented.  Note that `glWdgRecoveryCount` and `glWdgMaxRecovery` are
neither read, incremented, nor compared anywhere in this loop. -/
def watchdogPoll (env : WdgEnv) (s : FwState) (w : WdgState) : WdgResult :=
  if ¬ s.glIsApplnActive then { state := s, wdg := w, actions := [] }
  else
    let cur := s.glDMACount
    if cur = w.prevDMACount ∧ 0 < cur then
      if env.smState = 5 ∨ env.smState = 7 ∨ env.smState = 8 ∨
          env.smState = 9 then
        if 3 ≤ (w.stallCount + 1) % 256 then
          let teardown : List Action :=
            [.gpifGetSM, .gpifSWInput false, .gpifDisable false, .dmaReset,
             .flushEp, .i2c 0 SI5351_ADDR [] true]
          let restart : List Action :=
            if si5351_pll_locked env.pllStatusOk env.pllStatus then
              [.dmaSetXfer, .gpifSMStart, .gpifSWInput true]
            else []
          { state :=
              { s with
                glCounter2 := (s.glCounter2 + 1) % 2 ^ 32,
                glDMACount := 0 },
            wdg := { prevDMACount := 0, stallCount := 0 },
            actions := teardown ++ restart }
        else
          { state := s,
            wdg := { w with stallCount := (w.stallCount + 1) % 256 },
            actions := [.gpifGetSM] }
      else
        { state := s, wdg := { w with stallCount := 0 },
          actions := [.gpifGetSM] }
    else
      { state := s, wdg := { prevDMACount := cur, stallCount := 0 },
        actions := [] }

/-! ## Concrete fixtures used by witnesses and counterexamples -/

/-- An enumerated, idle firmware state (fw version 2.2, all counters 0). -/
def baseState : FwState :=
  { glIsApplnActive := true, glAdcClockEnabled := false, glVendorRqtCnt := 0,
    glWdgMaxRecovery := 0, glWdgRecoveryCount := 0, glDMACount := 0,
    glCounter0 := 0, glCounter1 := 0, glCounter2 := 0, glLastPibArg := 0,
    glHWconfig := 4, glFWconfig := 0x0202, glFlagDebug := false,
    glDebTxt := [], glEventQueue := [] }

/-- An environment in which every platform call succeeds. -/
def baseEnv : UsbEnv :=
  { getEP0Ok := true, ep0Data := [0, 0, 0, 0], smState := 0,
    pllStatusOk := true, pllStatus := 0, pllPollLocked := fun _ => true,
    siStatusByte := 0, i2cOk := true, i2cData := [], setXferOk := true,
    smStartOk := true,
    si := { clkOffOk := true, pllWriteOk := true, msWriteOk := true,
            pllResetOk := true, clkCtrlOk := true } }

/-! ## Helper lemmas -/

/-- For a vendor-type SETUP within the EP0 length limit, the callback is
the vendor switch. -/
theorem setupCB_vendor (env : UsbEnv) (s : FwState) (p : SetupPkt)
    (hT : p.bType = CY_U3P_USB_VENDOR_RQT)
    (hL : p.wLength ≤ CYFX_SDRAPP_MAX_EP0LEN) :
    CyFxSlFifoApplnUSBSetupCB env s p = vendorDispatch env s p := by
  simp [CyFxSlFifoApplnUSBSetupCB, hT, CY_U3P_USB_VENDOR_RQT,
    CY_U3P_USB_STANDARD_RQT, Nat.not_lt.mpr hL]

/-! ## C1 — STARTFX3 preflight refusal -/

/-- C1: a STARTFX3 vendor request whose preflight check fails (ADC clock
flag clear or PLL unlocked) is answered by a status-phase stall, leaves
the firmware state unchanged, and performs no GPIF disable, no DMA-ring
reset, no endpoint flush, no transfer setup, no state-machine start and
no trigger change — only the LPM disable, the data-phase read, the
preflight status read, and the stall. -/
theorem startfx3_preflight_refusal (env : UsbEnv) (s : FwState) (p : SetupPkt)
    (hT : p.bType = CY_U3P_USB_VENDOR_RQT) (hR : p.bRequest = STARTFX3)
    (hL : p.wLength ≤ CYFX_SDRAPP_MAX_EP0LEN)
    (hPre : GpifPreflightCheck env s = false) :
    (CyFxSlFifoApplnUSBSetupCB env s p).state = s ∧
    (CyFxSlFifoApplnUSBSetupCB env s p).isHandled = true ∧
    (CyFxSlFifoApplnUSBSetupCB env s p).actions =
      Action.lpmDisable :: Action.getEP0Data p.wLength ::
        preflightActs s ++ [Action.stall 0 true false] ∧
    ∀ a ∈ (CyFxSlFifoApplnUSBSetupCB env s p).actions,
      a = Action.lpmDisable ∨ a = Action.getEP0Data p.wLength ∨
      a = Action.i2c 0 SI5351_ADDR [] true ∨ a = Action.stall 0 true false := by
  rw [setupCB_vendor env s p hT hL]
  have hv : vendorDispatch env s p =
      { isHandled := true, state := s,
        actions := Action.lpmDisable :: Action.getEP0Data p.wLength ::
          preflightActs s ++ [Action.stall 0 true false] } := by
    simp [vendorDispatch, hR, hPre, STARTFX3, GPIOFX3, STARTADC, GETSTATS,
      I2CWFX3, I2CRFX3, SETARGFX3]
  rw [hv]
  refine ⟨rfl, rfl, rfl, ?_⟩
  intro a ha
  simp only [preflightActs] at ha
  by_cases hc : s.glAdcClockEnabled <;>
    simp [hc, List.mem_cons, List.mem_append] at ha <;> tauto

/-- Witness for C1 at a concrete refused START: ADC clock flag off. -/
theorem startfx3_preflight_refusal_witness :
    (CyFxSlFifoApplnUSBSetupCB baseEnv baseState
      { bType := 0x40, bTarget := 0, bRequest := 0xAA, wValue := 0,
        wIndex := 0, wLength := 4 }).state = baseState ∧
    (CyFxSlFifoApplnUSBSetupCB baseEnv baseState
      { bType := 0x40, bTarget := 0, bRequest := 0xAA, wValue := 0,
        wIndex := 0, wLength := 4 }).actions =
      [Action.lpmDisable, Action.getEP0Data 4, Action.stall 0 true false] := by
  have h := startfx3_preflight_refusal baseEnv baseState
    { bType := 0x40, bTarget := 0, bRequest := 0xAA, wValue := 0,
      wIndex := 0, wLength := 4 } rfl rfl (by decide) (by decide)
  exact ⟨h.1, by rw [h.2.2.1]; decide⟩

/-! ## C4 — oversized EP0 data phase -/

/-- C4: a vendor request whose wLength exceeds 64 is answered by a single
status-phase stall; no data-phase read, no EP0 buffer access and no
command handler runs, and the firmware state is unchanged. -/
theorem ep0_oversize_stall (env : UsbEnv) (s : FwState) (p : SetupPkt)
    (hT : p.bType = CY_U3P_USB_VENDOR_RQT)
    (hL : CYFX_SDRAPP_MAX_EP0LEN < p.wLength) :
    (CyFxSlFifoApplnUSBSetupCB env s p).state = s ∧
    (CyFxSlFifoApplnUSBSetupCB env s p).isHandled = true ∧
    (CyFxSlFifoApplnUSBSetupCB env s p).actions =
      [Action.stall 0 true false] := by
  simp [CyFxSlFifoApplnUSBSetupCB, hT, hL, CY_U3P_USB_VENDOR_RQT,
    CY_U3P_USB_STANDARD_RQT]

/-- Witness for C4: wLength 65 on a GETSTATS code is refused untouched. -/
theorem ep0_oversize_stall_witness :
    (CyFxSlFifoApplnUSBSetupCB baseEnv baseState
      { bType := 0x40, bTarget := 0, bRequest := 0xB3, wValue := 0,
        wIndex := 0, wLength := 65 }).actions = [Action.stall 0 true false] :=
  (ep0_oversize_stall baseEnv baseState
    { bType := 0x40, bTarget := 0, bRequest := 0xB3, wValue := 0,
      wIndex := 0, wLength := 65 } rfl (by decide)).2.2

/-! ## C6 — CLEAR_FEATURE(ENDPOINT_HALT) -/

/-- C6: a standard CLEAR_FEATURE(ENDPOINT_HALT) received while the
application is active clears the stall bit and resets the data toggle of
the addressed endpoint (CyU3PUsbStall with set = false, toggle = true)
and does nothing else: the state is unchanged and in particular no DMA
reset and no endpoint flush occurs. -/
theorem clear_feature_halt_effect (env : UsbEnv) (s : FwState) (p : SetupPkt)
    (hT : p.bType = CY_U3P_USB_STANDARD_RQT)
    (hTar : p.bTarget = CY_U3P_USB_TARGET_ENDPT)
    (hR : p.bRequest = CY_U3P_USB_SC_CLEAR_FEATURE)
    (hV : p.wValue = CY_U3P_USBX_FS_EP_HALT)
    (hA : s.glIsApplnActive = true) :
    (CyFxSlFifoApplnUSBSetupCB env s p).state = s ∧
    (CyFxSlFifoApplnUSBSetupCB env s p).isHandled = true ∧
    (CyFxSlFifoApplnUSBSetupCB env s p).actions =
      [Action.stall p.wIndex false true] := by
  simp [CyFxSlFifoApplnUSBSetupCB, standardDispatch, hT, hTar, hR, hV, hA,
    CY_U3P_USB_STANDARD_RQT, CY_U3P_USB_TARGET_ENDPT, CY_U3P_USB_TARGET_INTF,
    CY_U3P_USB_SC_CLEAR_FEATURE, CY_U3P_USB_SC_SET_FEATURE,
    CY_U3P_USBX_FS_EP_HALT]

/-- Witness for C6 on endpoint 0x81. -/
theorem clear_feature_halt_effect_witness :
    (CyFxSlFifoApplnUSBSetupCB baseEnv baseState
      { bType := 0, bTarget := 2, bRequest := 1, wValue := 0,
        wIndex := 0x81, wLength := 0 }).state = baseState ∧
    (CyFxSlFifoApplnUSBSetupCB baseEnv baseState
      { bType := 0, bTarget := 2, bRequest := 1, wValue := 0,
        wIndex := 0x81, wLength := 0 }).actions =
      [Action.stall 0x81 false true] := by
  have h := clear_feature_halt_effect baseEnv baseState
    { bType := 0, bTarget := 2, bRequest := 1, wValue := 0,
      wIndex := 0x81, wLength := 0 } rfl rfl rfl rfl rfl
  exact ⟨h.1, h.2.2⟩

/-! ## C7 — GETSTATS response layout -/

/-- Little-endian 4-byte round trip. -/
theorem le32_decode (n : Nat) :
    n % 256 + 256 * (n / 256 % 256) + 65536 * (n / 65536 % 256) +
      16777216 * (n / 16777216 % 256) = n % 2 ^ 32 := by
  omega

/-- Little-endian 2-byte round trip. -/
theorem le16_decode (n : Nat) :
    n % 256 + 256 * (n / 256 % 256) = n % 2 ^ 16 := by
  omega

/-- C7: a GETSTATS request synchronously reads the Si5351 status register
over I2C and answers with exactly 20 bytes: the DMA completion count
(little-endian 32-bit at offset 0), the GPIF SM state (byte 4), the PIB
error count (offset 5), the last PIB error argument (16-bit at offset 9),
the I2C failure count (offset 11), the streaming-fault count (offset 15)
and the clock-chip status byte (byte 19). -/
theorem getstats_layout (env : UsbEnv) (s : FwState) (p : SetupPkt)
    (hT : p.bType = CY_U3P_USB_VENDOR_RQT) (hR : p.bRequest = GETSTATS)
    (hL : p.wLength ≤ CYFX_SDRAPP_MAX_EP0LEN) :
    (CyFxSlFifoApplnUSBSetupCB env s p).isHandled = true ∧
    (CyFxSlFifoApplnUSBSetupCB env s p).state = s ∧
    (CyFxSlFifoApplnUSBSetupCB env s p).actions =
      [Action.gpifGetSM, Action.i2c 0 SI5351_ADDR [] true,
       Action.sendEP0 (statsBytes env s)] ∧
    (statsBytes env s).length = 20 ∧
    decode32 (statsBytes env s) 0 = s.glDMACount % 2 ^ 32 ∧
    (statsBytes env s).getD 4 0 = env.smState % 256 ∧
    decode32 (statsBytes env s) 5 = s.glCounter0 % 2 ^ 32 ∧
    decode16 (statsBytes env s) 9 = s.glLastPibArg % 2 ^ 16 ∧
    decode32 (statsBytes env s) 11 = s.glCounter1 % 2 ^ 32 ∧
    decode32 (statsBytes env s) 15 = s.glCounter2 % 2 ^ 32 ∧
    (statsBytes env s).getD 19 0 = env.siStatusByte % 256 := by
  rw [setupCB_vendor env s p hT hL]
  have hv : vendorDispatch env s p =
      { isHandled := true, state := s,
        actions := [Action.gpifGetSM, Action.i2c 0 SI5351_ADDR [] true,
          Action.sendEP0 (statsBytes env s)] } := by
    simp [vendorDispatch, hR, GETSTATS, GPIOFX3, STARTADC]
  rw [hv]
  refine ⟨rfl, rfl, rfl, ?_, ?_, ?_, ?_, ?_, ?_, ?_, ?_⟩ <;>
    simp [statsBytes, le32, le16, decode32, decode16] <;>
    first
      | exact le32_decode _
      | exact le16_decode _

/-- Witness for C7 at a concrete state with distinctive counters. -/
theorem getstats_layout_witness :
    (CyFxSlFifoApplnUSBSetupCB
        { baseEnv with smState := 5, siStatusByte := 0x11 }
        { baseState with
            glDMACount := 70000, glCounter0 := 3, glCounter1 := 4,
            glCounter2 := 4294967295, glLastPibArg := 0x1234 }
        { bType := 0x40, bTarget := 0, bRequest := 0xB3, wValue := 0,
          wIndex := 0, wLength := 20 }).actions =
      [Action.gpifGetSM, Action.i2c 0 0xC0 [] true,
       Action.sendEP0 [112, 17, 1, 0, 5, 3, 0, 0, 0, 0x34, 0x12, 4, 0, 0, 0,
         255, 255, 255, 255, 0x11]] := by
  have h := getstats_layout { baseEnv with smState := 5, siStatusByte := 0x11 }
    { baseState with
        glDMACount := 70000, glCounter0 := 3, glCounter1 := 4,
        glCounter2 := 4294967295, glLastPibArg := 0x1234 }
    { bType := 0x40, bTarget := 0, bRequest := 0xB3, wValue := 0,
      wIndex := 0, wLength := 20 } rfl rfl (by decide)
  rw [h.2.2.1]
  decide

/-! ## C10 — SETARGFX3 with the watchdog-cap index -/

/-- C10: a SETARGFX3 request with wIndex = WDG_MAX_RECOV is accepted for
every wValue (handled, no stall: its only platform calls are the
data-phase read), the stored cap is the low byte wValue mod 256, and the
vendor-request counter advances by one mod 256. -/
theorem setarg_watchdog_cap_accepts (env : UsbEnv) (s : FwState)
    (p : SetupPkt) (hT : p.bType = CY_U3P_USB_VENDOR_RQT)
    (hR : p.bRequest = SETARGFX3) (hI : p.wIndex = WDG_MAX_RECOV)
    (hL : p.wLength ≤ CYFX_SDRAPP_MAX_EP0LEN) :
    (CyFxSlFifoApplnUSBSetupCB env s p).isHandled = true ∧
    (CyFxSlFifoApplnUSBSetupCB env s p).actions =
      [Action.getEP0Data p.wLength] ∧
    (CyFxSlFifoApplnUSBSetupCB env s p).state.glWdgMaxRecovery =
      p.wValue % 256 ∧
    (CyFxSlFifoApplnUSBSetupCB env s p).state.glVendorRqtCnt =
      (s.glVendorRqtCnt + 1) % 256 := by
  rw [setupCB_vendor env s p hT hL]
  simp [vendorDispatch, hR, hI, SETARGFX3, GPIOFX3, STARTADC, GETSTATS,
    I2CWFX3, I2CRFX3, WDG_MAX_RECOV, DAT31_ATT, AD8370_VGA]

/-- Witness for C10: wValue = 300 stores cap 44 without a stall. -/
theorem setarg_watchdog_cap_accepts_witness :
    (CyFxSlFifoApplnUSBSetupCB baseEnv baseState
      { bType := 0x40, bTarget := 0, bRequest := 0xB6, wValue := 300,
        wIndex := 14, wLength := 4 }).state.glWdgMaxRecovery = 44 ∧
    (CyFxSlFifoApplnUSBSetupCB baseEnv baseState
      { bType := 0x40, bTarget := 0, bRequest := 0xB6, wValue := 300,
        wIndex := 14, wLength := 4 }).actions = [Action.getEP0Data 4] := by
  have h := setarg_watchdog_cap_accepts baseEnv baseState
    { bType := 0x40, bTarget := 0, bRequest := 0xB6, wValue := 300,
      wIndex := 14, wLength := 4 } rfl rfl rfl (by decide)
  exact ⟨by rw [h.2.2.1]; decide, h.2.1⟩

/-! ## C9 — ADC-clock-enabled flag semantics in si5351aSetFrequencyA -/

/-- C9: with freq = 0 the call clears the ADC-clock-enabled flag
unconditionally — its trace is exactly the CLK0-off register write, and
the flag reads false no matter how that write's I2C transfer fares (so a
failed write is not rolled back); with freq > 0 a call that finds the
flag false leaves it true only when the final CLK0-control register write
was reached and succeeded. -/
theorem adc_clock_flag_semantics (env : SiEnv) (flag : Bool) :
    ((si5351aSetFrequencyA env flag 0).flag = false ∧
     (si5351aSetFrequencyA env flag 0).actions =
       [Action.i2c SI_CLK0_CONTROL SI5351_ADDR [0x80] false] ∧
     (si5351aSetFrequencyA env flag 0).ok = env.clkOffOk) ∧
    ∀ freq, 0 < freq →
      (si5351aSetFrequencyA env false freq).flag = true →
      env.pllWriteOk = true ∧ env.msWriteOk = true ∧
        env.pllResetOk = true ∧ env.clkCtrlOk = true := by
  constructor
  · exact ⟨rfl, rfl, rfl⟩
  · intro freq hf hflag
    have hne : freq ≠ 0 := Nat.pos_iff_ne_zero.mp hf
    simp only [si5351aSetFrequencyA, hne, if_false] at hflag
    by_cases h1 : env.pllWriteOk <;> by_cases h2 : env.msWriteOk <;>
      by_cases h3 : env.pllResetOk <;> by_cases h4 : env.clkCtrlOk <;>
      simp [h1, h2, h3, h4] at hflag ⊢

/-- Witness for C9: all-failing environment at freq = 0 still reports the
flag disabled; an all-succeeding environment at 32 MHz reaches the final
write. -/
theorem adc_clock_flag_semantics_witness :
    (si5351aSetFrequencyA
      { clkOffOk := false, pllWriteOk := false, msWriteOk := false,
        pllResetOk := false, clkCtrlOk := false } true 0).flag = false ∧
    ({ clkOffOk := true, pllWriteOk := true, msWriteOk := true,
       pllResetOk := true, clkCtrlOk := true : SiEnv }.clkCtrlOk = true) := by
  refine ⟨(adc_clock_flag_semantics
    { clkOffOk := false, pllWriteOk := false, msWriteOk := false,
      pllResetOk := false, clkCtrlOk := false } true).1.1, ?_⟩
  exact ((adc_clock_flag_semantics
    { clkOffOk := true, pllWriteOk := true, msWriteOk := true,
      pllResetOk := true, clkCtrlOk := true } false).2 32000000 (by decide)
    (by decide)).2.2.2

/-! ## C3 — PIB error callback has no one-shot latch -/

/-- Counterexample to C3: starting from an empty event queue (a fresh
session), two PIB error interrupts enqueue two PIB-error events — the
callback has no one-shot latch, so "at most one PIB-error event per
session" is false. -/
theorem pib_error_two_events_one_session :
    ((PibErrorCallback CYU3P_PIB_INTR_ERROR 9
        (PibErrorCallback CYU3P_PIB_INTR_ERROR 7 baseState)).glEventQueue.filter
      (fun e => e / 2 ^ 24 == PIB_ERROR_TAG)).length = 2 := by
  decide

/-- C3 amended: every PIB error interrupt increments the PIB error
counter, stores the 16-bit error argument, and attempts one non-blocking
enqueue of a tagged PIB-error event — the event is appended whenever the
16-slot queue has room and silently dropped otherwise; no latch limits
the number of enqueued events per session. -/
theorem pib_error_callback_unlatched (arg : Nat) (s : FwState) :
    (PibErrorCallback CYU3P_PIB_INTR_ERROR arg s).glCounter0 =
      (s.glCounter0 + 1) % 2 ^ 32 ∧
    (PibErrorCallback CYU3P_PIB_INTR_ERROR arg s).glLastPibArg =
      arg % 2 ^ 16 ∧
    (PibErrorCallback CYU3P_PIB_INTR_ERROR arg s).glEventQueue =
      queueSend s.glEventQueue (PIB_ERROR_TAG * 2 ^ 24 ||| arg % 2 ^ 16) := by
  refine ⟨?_, ?_, ?_⟩ <;> simp [PibErrorCallback]

/-! ## C2 — the watchdog never consults the recovery cap -/

/-- A streaming session that has already used its whole recovery budget:
cap 1, recovery count 1, two stalled polls behind it, DMA count frozen
at 5, GPIF SM wedged in BUSY state 5, PLL locked. -/
def cappedState : FwState :=
  { baseState with
      glDMACount := 5, glWdgMaxRecovery := 1, glWdgRecoveryCount := 1 }

/-- C2 fails on the code: with the recovery cap configured to 1 and the
per-session recovery count already at the cap, the next stalled watchdog
poll still performs a full hardware recovery — trigger de-assert, PIB
disable, DMA-ring reset, endpoint flush and restart — and bumps the
streaming-fault counter.  The watchdog code never reads
`glWdgMaxRecovery` nor writes `glWdgRecoveryCount`, so the cap can never
stop it. -/
theorem watchdog_ignores_recovery_cap :
    1 ≤ cappedState.glWdgMaxRecovery ∧
    cappedState.glWdgMaxRecovery ≤ cappedState.glWdgRecoveryCount ∧
    Action.gpifSWInput false ∈
      (watchdogPoll { smState := 5, pllStatusOk := true, pllStatus := 0 }
        cappedState { prevDMACount := 5, stallCount := 2 }).actions ∧
    Action.gpifDisable false ∈
      (watchdogPoll { smState := 5, pllStatusOk := true, pllStatus := 0 }
        cappedState { prevDMACount := 5, stallCount := 2 }).actions ∧
    Action.dmaReset ∈
      (watchdogPoll { smState := 5, pllStatusOk := true, pllStatus := 0 }
        cappedState { prevDMACount := 5, stallCount := 2 }).actions ∧
    Action.flushEp ∈
      (watchdogPoll { smState := 5, pllStatusOk := true, pllStatus := 0 }
        cappedState { prevDMACount := 5, stallCount := 2 }).actions ∧
    Action.gpifSMStart ∈
      (watchdogPoll { smState := 5, pllStatusOk := true, pllStatus := 0 }
        cappedState { prevDMACount := 5, stallCount := 2 }).actions ∧
    (watchdogPoll { smState := 5, pllStatusOk := true, pllStatus := 0 }
        cappedState { prevDMACount := 5, stallCount := 2 }).state.glCounter2 =
      cappedState.glCounter2 + 1 ∧
    (watchdogPoll { smState := 5, pllStatusOk := true, pllStatus := 0 }
        cappedState
        { prevDMACount := 5, stallCount := 2 }).state.glWdgRecoveryCount =
      cappedState.glWdgRecoveryCount := by
  decide

/-! ## C5 — which vendor requests advance glVendorRqtCnt -/

/-- Counterexample to C5: a GPIOFX3 request is handled successfully, yet
the vendor-request counter does not move (the same holds for START, STOP,
STARTADC, I2C read/write and GETSTATS — only SETARGFX3, TESTFX3 and
READINFODEBUG increment it). -/
theorem gpio_handled_without_count_increment :
    (CyFxSlFifoApplnUSBSetupCB baseEnv
        { baseState with glVendorRqtCnt := 7 }
        { bType := 0x40, bTarget := 0, bRequest := 0xAD, wValue := 0,
          wIndex := 0, wLength := 4 }).isHandled = true ∧
    (CyFxSlFifoApplnUSBSetupCB baseEnv
        { baseState with glVendorRqtCnt := 7 }
        { bType := 0x40, bTarget := 0, bRequest := 0xAD, wValue := 0,
          wIndex := 0, wLength := 4 }).state.glVendorRqtCnt = 7 := by
  decide

/-- C5 amended: the 8-bit vendor-request counter advances (mod 256,
wrapping 255 to 0) exactly on SETARGFX3 with a recognized argument index
(ATTENUATOR 10, VGA 11, WATCHDOG_CAP 14), on TESTFX3 (INFO), and on
READINFODEBUG when console output is pending; every other vendor request
— including START, STOP, GPIO, STARTADC, I2C read/write and GETSTATS —
leaves it unchanged whether it succeeds or not. -/
theorem vendor_count_increment_exact (env : UsbEnv) (s : FwState)
    (p : SetupPkt) (hT : p.bType = CY_U3P_USB_VENDOR_RQT)
    (hL : p.wLength ≤ CYFX_SDRAPP_MAX_EP0LEN) :
    (CyFxSlFifoApplnUSBSetupCB env s p).state.glVendorRqtCnt =
      if (p.bRequest = SETARGFX3 ∧
            (p.wIndex = DAT31_ATT ∨ p.wIndex = AD8370_VGA ∨
              p.wIndex = WDG_MAX_RECOV)) ∨
          p.bRequest = TESTFX3 ∨
          (p.bRequest = READINFODEBUG ∧ s.glDebTxt ≠ []) then
        (s.glVendorRqtCnt + 1) % 256
      else s.glVendorRqtCnt := by
  rw [setupCB_vendor env s p hT hL]
  simp only [vendorDispatch]
  by_cases h1 : p.bRequest = GPIOFX3
  · have hc : ¬((p.bRequest = SETARGFX3 ∧
        (p.wIndex = DAT31_ATT ∨ p.wIndex = AD8370_VGA ∨
          p.wIndex = WDG_MAX_RECOV)) ∨
        p.bRequest = TESTFX3 ∨
        (p.bRequest = READINFODEBUG ∧ s.glDebTxt ≠ [])) := by
      simp [h1, GPIOFX3, SETARGFX3, TESTFX3, READINFODEBUG]
    rw [if_pos h1, if_neg hc]
    split_ifs <;> rfl
  rw [if_neg h1]
  by_cases h2 : p.bRequest = STARTADC
  · have hc : ¬((p.bRequest = SETARGFX3 ∧
        (p.wIndex = DAT31_ATT ∨ p.wIndex = AD8370_VGA ∨
          p.wIndex = WDG_MAX_RECOV)) ∨
        p.bRequest = TESTFX3 ∨
        (p.bRequest = READINFODEBUG ∧ s.glDebTxt ≠ [])) := by
      simp [h2, STARTADC, SETARGFX3, TESTFX3, READINFODEBUG]
    rw [if_pos h2, if_neg hc]
    split_ifs <;> rfl
  rw [if_neg h2]
  by_cases h3 : p.bRequest = GETSTATS
  · have hc : ¬((p.bRequest = SETARGFX3 ∧
        (p.wIndex = DAT31_ATT ∨ p.wIndex = AD8370_VGA ∨
          p.wIndex = WDG_MAX_RECOV)) ∨
        p.bRequest = TESTFX3 ∨
        (p.bRequest = READINFODEBUG ∧ s.glDebTxt ≠ [])) := by
      simp [h3, GETSTATS, SETARGFX3, TESTFX3, READINFODEBUG]
    rw [if_pos h3, if_neg hc]
  rw [if_neg h3]
  by_cases h4 : p.bRequest = I2CWFX3
  · have hc : ¬((p.bRequest = SETARGFX3 ∧
        (p.wIndex = DAT31_ATT ∨ p.wIndex = AD8370_VGA ∨
          p.wIndex = WDG_MAX_RECOV)) ∨
        p.bRequest = TESTFX3 ∨
        (p.bRequest = READINFODEBUG ∧ s.glDebTxt ≠ [])) := by
      simp [h4, I2CWFX3, SETARGFX3, TESTFX3, READINFODEBUG]
    rw [if_pos h4, if_neg hc]
    split_ifs <;> rfl
  rw [if_neg h4]
  by_cases h5 : p.bRequest = I2CRFX3
  · have hc : ¬((p.bRequest = SETARGFX3 ∧
        (p.wIndex = DAT31_ATT ∨ p.wIndex = AD8370_VGA ∨
          p.wIndex = WDG_MAX_RECOV)) ∨
        p.bRequest = TESTFX3 ∨
        (p.bRequest = READINFODEBUG ∧ s.glDebTxt ≠ [])) := by
      simp [h5, I2CRFX3, SETARGFX3, TESTFX3, READINFODEBUG]
    rw [if_pos h5, if_neg hc]
    split_ifs <;> rfl
  rw [if_neg h5]
  by_cases h6 : p.bRequest = SETARGFX3
  · rw [if_pos h6]
    by_cases hi1 : p.wIndex = DAT31_ATT
    · rw [if_pos hi1, if_pos (Or.inl ⟨h6, Or.inl hi1⟩)]
    rw [if_neg hi1]
    by_cases hi2 : p.wIndex = AD8370_VGA
    · rw [if_pos hi2, if_pos (Or.inl ⟨h6, Or.inr (Or.inl hi2)⟩)]
    rw [if_neg hi2]
    by_cases hi3 : p.wIndex = WDG_MAX_RECOV
    · rw [if_pos hi3, if_pos (Or.inl ⟨h6, Or.inr (Or.inr hi3)⟩)]
    have hc : ¬((p.bRequest = SETARGFX3 ∧
        (p.wIndex = DAT31_ATT ∨ p.wIndex = AD8370_VGA ∨
          p.wIndex = WDG_MAX_RECOV)) ∨
        p.bRequest = TESTFX3 ∨
        (p.bRequest = READINFODEBUG ∧ s.glDebTxt ≠ [])) := by
      simp [h6, hi1, hi2, hi3, SETARGFX3, TESTFX3, READINFODEBUG]
    rw [if_neg hi3, if_neg hc]
  rw [if_neg h6]
  by_cases h7 : p.bRequest = STARTFX3
  · have hc : ¬((p.bRequest = SETARGFX3 ∧
        (p.wIndex = DAT31_ATT ∨ p.wIndex = AD8370_VGA ∨
          p.wIndex = WDG_MAX_RECOV)) ∨
        p.bRequest = TESTFX3 ∨
        (p.bRequest = READINFODEBUG ∧ s.glDebTxt ≠ [])) := by
      simp [h7, STARTFX3, SETARGFX3, TESTFX3, READINFODEBUG]
    rw [if_pos h7, if_neg hc]
    split_ifs <;> rfl
  rw [if_neg h7]
  by_cases h8 : p.bRequest = STOPFX3
  · have hc : ¬((p.bRequest = SETARGFX3 ∧
        (p.wIndex = DAT31_ATT ∨ p.wIndex = AD8370_VGA ∨
          p.wIndex = WDG_MAX_RECOV)) ∨
        p.bRequest = TESTFX3 ∨
        (p.bRequest = READINFODEBUG ∧ s.glDebTxt ≠ [])) := by
      simp [h8, STOPFX3, SETARGFX3, TESTFX3, READINFODEBUG]
    rw [if_pos h8, if_neg hc]
  rw [if_neg h8]
  by_cases h9 : p.bRequest = RESETFX3
  · have hc : ¬((p.bRequest = SETARGFX3 ∧
        (p.wIndex = DAT31_ATT ∨ p.wIndex = AD8370_VGA ∨
          p.wIndex = WDG_MAX_RECOV)) ∨
        p.bRequest = TESTFX3 ∨
        (p.bRequest = READINFODEBUG ∧ s.glDebTxt ≠ [])) := by
      simp [h9, RESETFX3, SETARGFX3, TESTFX3, READINFODEBUG]
    rw [if_pos h9, if_neg hc]
  rw [if_neg h9]
  by_cases h10 : p.bRequest = TESTFX3
  · rw [if_pos h10, if_pos (Or.inr (Or.inl h10))]
  rw [if_neg h10]
  by_cases h11 : p.bRequest = READINFODEBUG
  · rw [if_pos h11]
    by_cases hd : s.glDebTxt = []
    · have hc : ¬((p.bRequest = SETARGFX3 ∧
          (p.wIndex = DAT31_ATT ∨ p.wIndex = AD8370_VGA ∨
            p.wIndex = WDG_MAX_RECOV)) ∨
          p.bRequest = TESTFX3 ∨
          (p.bRequest = READINFODEBUG ∧ s.glDebTxt ≠ [])) := by
        simp [h11, hd, READINFODEBUG, SETARGFX3, TESTFX3]
      have hd' : ¬(s.glDebTxt ≠ []) := by simpa using hd
      rw [if_neg hd', if_neg hc]
    · have hd' : s.glDebTxt ≠ [] := hd
      rw [if_pos hd', if_pos (Or.inr (Or.inr ⟨h11, hd'⟩))]
  rw [if_neg h11]
  have hc : ¬((p.bRequest = SETARGFX3 ∧
      (p.wIndex = DAT31_ATT ∨ p.wIndex = AD8370_VGA ∨
        p.wIndex = WDG_MAX_RECOV)) ∨
      p.bRequest = TESTFX3 ∨
      (p.bRequest = READINFODEBUG ∧ s.glDebTxt ≠ [])) := by
    simp [h6, h10, h11]
  rw [if_neg hc]

/-- Witness for C5 amended: a TESTFX3 request at counter 255 wraps the
counter to 0. -/
theorem vendor_count_increment_exact_witness :
    (CyFxSlFifoApplnUSBSetupCB baseEnv
        { baseState with glVendorRqtCnt := 255 }
        { bType := 0x40, bTarget := 0, bRequest := 0xAC, wValue := 0,
          wIndex := 0, wLength := 4 }).state.glVendorRqtCnt = 0 := by
  have h := vendor_count_increment_exact baseEnv
    { baseState with glVendorRqtCnt := 255 }
    { bType := 0x40, bTarget := 0, bRequest := 0xAC, wValue := 0,
      wIndex := 0, wLength := 4 } rfl (by decide)
  rw [h]
  decide

/-! ## C8 — PLL multiplier decomposition

Spec-side definitions, written from the claim's own formulas ("all
operations exact integer arithmetic", with the division in P1/P2 a
mathematical floor), to be compared against the code-side `pllP1` /
`pllP2` / `pllP3` computed by `SetupPLL`. -/

/-- Claim formula: mult = pll_freq / xtal. -/
def spec_mult (pllFreq xtal : Nat) : Nat := pllFreq / xtal

/-- Claim formula: num = ((pll_freq mod xtal) * (2^20 - 1)) / xtal. -/
def spec_num (pllFreq xtal : Nat) : Nat := pllFreq % xtal * (2 ^ 20 - 1) / xtal

/-- Claim formula: P1 = 128 * mult + floor(128 * num / denom) - 512, in
exact (signed) integer arithmetic. -/
def specP1 (mult num denom : ℤ) : ℤ := 128 * mult + 128 * num / denom - 512

/-- Claim formula: P2 = 128 * num - denom * floor(128 * num / denom). -/
def specP2 (num denom : ℤ) : ℤ := 128 * num - denom * (128 * num / denom)

/-- Claim formula: P3 = denom. -/
def specP3 (denom : ℤ) : ℤ := denom

/-- Counterexample to C8: at freq = 500000000 (so the doubled frequency
is 500 MHz, the even divider collapses to 0 and pll_freq = 0), the P1
value the code programs is 2^32 - 512 — the UINT32 subtraction wraps —
while the claim's exact-integer formula gives -512.  The claimed exact
equality fails. -/
theorem pll_p1_not_exact_at_500mhz :
    ((pllP1 (pllMult 500000000) (pllNum 500000000) pllDenom : Nat) : ℤ) ≠
      specP1 ((pllMult 500000000 : Nat) : ℤ) ((pllNum 500000000 : Nat) : ℤ)
        ((pllDenom : Nat) : ℤ) := by
  decide

/-- Nat-to-Int cast of a Nat division. -/
theorem cast_nat_div (a b : Nat) : ((a / b : Nat) : ℤ) = (a : ℤ) / (b : ℤ) :=
  Int.natCast_div a b

/-- The code's P1 equals the claim's P1 reduced mod 2^32 (Euclidean
remainder). -/
theorem pllP1_emod (m n d : Nat) :
    ((pllP1 m n d : Nat) : ℤ) =
      Int.emod (specP1 (m : ℤ) (n : ℤ) (d : ℤ)) (2 ^ 32) := by
  unfold pllP1 specP1
  have hdiv : 128 * (n : ℤ) / (d : ℤ) = ((128 * n / d : Nat) : ℤ) := by
    rw [cast_nat_div]
    push_cast
    ring_nf
  rw [hdiv, show ((2 : ℤ) ^ 32) = 4294967296 by norm_num]
  have hmod : ∀ x : ℤ, Int.emod x 4294967296 = x % 4294967296 := fun _ => rfl
  rw [hmod]
  generalize (128 * n / d : Nat) = k
  omega

/-- The code's P2 equals the claim's P2 exactly (it is the remainder of
128 * num by denom, hence never negative). -/
theorem pllP2_exact (n d : Nat) :
    ((pllP2 n d : Nat) : ℤ) = specP2 (n : ℤ) (d : ℤ) := by
  unfold pllP2 specP2
  have hle : d * (128 * n / d) ≤ 128 * n := by
    calc d * (128 * n / d) = 128 * n / d * d := Nat.mul_comm _ _
    _ ≤ 128 * n := Nat.div_mul_le_self _ _
  have hdiv : 128 * (n : ℤ) / (d : ℤ) = ((128 * n / d : Nat) : ℤ) := by
    rw [cast_nat_div]
    push_cast
    ring_nf
  rw [Int.ofNat_sub hle, hdiv]
  push_cast
  ring

/-- C8 amended: for every freq > 0 the first register write issued by
si5351aSetFrequencyA programs PLL A with the bytes derived from
(P1, P2, P3); mult, num and denom satisfy the claim's formulas exactly
(with xtal = 27000000 and pll_freq = divider * frequency as the claim
defines them); P2 and P3 satisfy the claim's formulas exactly; and P1
equals the claim's exact-integer formula reduced modulo 2^32 — the
UINT32 wrap at freq = 500000000 is the only deviation, and for doubled
frequencies up to 450 MHz (divider at least 2) the mod is the identity. -/
theorem pll_decomposition_registers (env : SiEnv) (flag : Bool) (freq : Nat)
    (h : 0 < freq) :
    (si5351aSetFrequencyA env flag freq).actions.head? =
      some (Action.i2c SI_SYNTH_PLL_A SI5351_ADDR
        (SetupPLLData (pllMult freq) (pllNum freq) pllDenom) false) ∧
    pllMult freq = spec_mult (adcPllFreq freq) SI5351_FREQ ∧
    pllNum freq = spec_num (adcPllFreq freq) SI5351_FREQ ∧
    pllDenom = 2 ^ 20 - 1 ∧
    ((pllP1 (pllMult freq) (pllNum freq) pllDenom : Nat) : ℤ) =
      Int.emod (specP1 ((pllMult freq : Nat) : ℤ) ((pllNum freq : Nat) : ℤ)
        ((pllDenom : Nat) : ℤ)) (2 ^ 32) ∧
    ((pllP2 (pllNum freq) pllDenom : Nat) : ℤ) =
      specP2 ((pllNum freq : Nat) : ℤ) ((pllDenom : Nat) : ℤ) ∧
    ((pllP3 pllDenom : Nat) : ℤ) = specP3 ((pllDenom : Nat) : ℤ) := by
  have hne : freq ≠ 0 := Nat.pos_iff_ne_zero.mp h
  refine ⟨?_, ?_, ?_, ?_, pllP1_emod _ _ _, pllP2_exact _ _, ?_⟩
  · unfold si5351aSetFrequencyA
    rw [if_neg hne]
    split_ifs <;> rfl
  · rfl
  · norm_num [pllNum, spec_num, SI5351_FREQ]
  · norm_num [pllDenom]
  · simp [pllP3, specP3]

/-- Witness for C8 amended at freq = 32000000 (a realistic ADC clock):
the P1 relation instantiates to a true closed fact. -/
theorem pll_decomposition_registers_witness :
    0 < 32000000 ∧
    ((pllP1 (pllMult 32000000) (pllNum 32000000) pllDenom : Nat) : ℤ) =
      Int.emod (specP1 ((pllMult 32000000 : Nat) : ℤ)
        ((pllNum 32000000 : Nat) : ℤ) ((pllDenom : Nat) : ℤ)) (2 ^ 32) :=
  ⟨by decide,
   (pll_decomposition_registers
     { clkOffOk := true, pllWriteOk := true, msWriteOk := true,
       pllResetOk := true, clkCtrlOk := true } false 32000000
     (by decide)).2.2.2.2.1⟩

end SDDC
